import Mathlib

/-!
Shallow embedding of the `nlptest` repository (Harness report aggregation,
Harness state machine, and the CoNLL/CSV data loaders) together with proofs
about the properties its specification states.

Python floats are modelled by `ℚ` (all the rates involved are exact decimal
fractions), Python dicts by association lists in insertion order where a
later binding of a key overwrites an earlier one, and raised exceptions by
`Except` results.
-/

namespace Nlptest

/-- One evaluated test case the way `Harness.report` consumes it: its
`test_type`, its `category` and the verdict `is_pass()`. -/
structure ResultSample where
  test_type : String
  category : String
  is_pass : Bool
deriving DecidableEq

/-- The parameter record attached to one test name in the config, of which
`Harness.report` only reads `min_pass_rate`. -/
structure TestParams where
  min_pass_rate : Option ℚ
deriving DecidableEq

/-- The configuration dict: the top-level `tests` section (category →
test name → params, in insertion order) and the `min_pass_rate` entry of the
top-level `defaults` section. -/
structure TestConfig where
  tests : List (String × List (String × TestParams))
  defaults_min_pass_rate : Option ℚ
deriving DecidableEq

/-- Lookup in a Python dict represented as its assignment list: the last
binding of a key wins, `dflt` when the key is absent
(`d.get(k, dflt)`). -/
def dictGetD (l : List (String × α)) (k : String) (dflt : α) : α :=
  match l.reverse.find? (fun p => p.1 == k) with
  | some p => p.2
  | none => dflt

/-- Lookup in a Python dict represented as its assignment list: the last
binding of a key, `none` when the key is absent. -/
def dictGet? (l : List (String × α)) (k : String) : Option α :=
  (l.reverse.find? (fun p => p.1 == k)).map Prod.snd

/-- Embeds `self._config['defaults'].get('min_pass_rate', 0.65)` in
`Harness.report`. -/
def defaultMinPass (cfg : TestConfig) : ℚ :=
  cfg.defaults_min_pass_rate.getD (65/100)

/-- The flattened `(test name, params)` pairs of the config's `tests`
section, in declaration order. -/
def testEntries (cfg : TestConfig) : List (String × TestParams) :=
  cfg.tests.flatMap Prod.snd

/-- Embeds `self.min_pass_dict`, the dict comprehension
`{j: k.get('min_pass_rate', default) for i, v in config['tests'].items() for j, k in v.items()}`. -/
def minPassDict (cfg : TestConfig) : List (String × ℚ) :=
  (testEntries cfg).map (fun jk => (jk.1, jk.2.min_pass_rate.getD (defaultMinPass cfg)))

/-- Embeds `self.min_pass_dict.get(test_type, self.default_min_pass_dict)`. -/
def resolvedMinPassRate (cfg : TestConfig) (t : String) : ℚ :=
  dictGetD (minPassDict cfg) t (defaultMinPass cfg)

/-- Embeds `summary[test_type]["true"]` after the summary loop of
`Harness.report`: each evaluated sample of this test type with
`is_pass() == True` adds one. -/
def passCount (results : List ResultSample) (t : String) : Nat :=
  results.countP (fun s => s.test_type == t && s.is_pass)

/-- Embeds `summary[test_type]["false"]` after the summary loop of
`Harness.report`. -/
def failCount (results : List ResultSample) (t : String) : Nat :=
  results.countP (fun s => s.test_type == t && !s.is_pass)

/-- Embeds `summary[test_type]['category']`: the loop writes every sample's
category, so the last sample of this test type wins. -/
def rowCategory (results : List ResultSample) (t : String) : String :=
  match results.reverse.find? (fun s => s.test_type == t) with
  | some s => s.category
  | none => ""

/-- One row of the report dict built by `Harness.report`. -/
structure ReportRow where
  category : String
  fail_count : Nat
  pass_count : Nat
  pass_rate : ℚ
  minimum_pass_rate : ℚ
  pass : Bool
deriving DecidableEq

/-- The body of the `for test_type, value in summary.items()` loop of
`Harness.report`: the row the report assigns to `test_type`. -/
def reportRow (cfg : TestConfig) (results : List ResultSample) (t : String) : ReportRow :=
  let p := passCount results t
  let f := failCount results t
  let pass_rate : ℚ := (p : ℚ) / ((p + f : ℕ) : ℚ)
  let m := resolvedMinPassRate cfg t
  let min_pass_rate : ℚ := if rowCategory results t = "Accuracy" then 1 else m
  { category := rowCategory results t
    fail_count := f
    pass_count := p
    pass_rate := pass_rate
    minimum_pass_rate := min_pass_rate
    pass := decide (min_pass_rate ≤ pass_rate) }

/-- The keys of `summary` in insertion order (Python dicts preserve the
order in which keys first appear). -/
def testTypes (results : List ResultSample) : List String :=
  results.foldl (fun acc s => if s.test_type ∈ acc then acc else acc ++ [s.test_type]) []

/-- The full `report` dict of `Harness.report`: one row per test type
appearing among the evaluated results. -/
def reportRows (cfg : TestConfig) (results : List ResultSample) : List (String × ReportRow) :=
  (testTypes results).map (fun t => (t, reportRow cfg results t))

/-- The boundary example of the spec: 13 passing and 7 failing evaluated
cases of the `uppercase` test type. -/
def boundaryResults : List ResultSample :=
  List.replicate 13 { test_type := "uppercase", category := "robustness", is_pass := true }
    ++ List.replicate 7 { test_type := "uppercase", category := "robustness", is_pass := false }

/-- A config with no per-test override and the default `min_pass_rate`
0.65. -/
def boundaryConfig : TestConfig :=
  { tests := [("robustness", [("uppercase", ⟨none⟩)])]
    defaults_min_pass_rate := some (65/100) }

/-- Claim C1: for every evaluated test type with at least one evaluated
case, the report row's `pass_rate` is `pass_count / (pass_count +
fail_count)`, the row is in the report, and the row's boolean `pass` holds
exactly when `pass_rate >= minimum_pass_rate`; in particular with pass=13,
fail=7 and minimum pass rate 0.65 the pass rate is exactly 0.65 and the row
passes. -/
theorem report_pass_rate_and_pass :
    (∀ (cfg : TestConfig) (results : List ResultSample) (t : String),
      t ∈ testTypes results →
        (t, reportRow cfg results t) ∈ reportRows cfg results
        ∧ (reportRow cfg results t).pass_rate
            = ((passCount results t : ℚ) / ((passCount results t + failCount results t : ℕ) : ℚ))
        ∧ ((reportRow cfg results t).pass = true
            ↔ (reportRow cfg results t).minimum_pass_rate ≤ (reportRow cfg results t).pass_rate))
    ∧ passCount boundaryResults "uppercase" = 13
    ∧ failCount boundaryResults "uppercase" = 7
    ∧ (reportRow boundaryConfig boundaryResults "uppercase").pass_rate = 65/100
    ∧ (reportRow boundaryConfig boundaryResults "uppercase").minimum_pass_rate = 65/100
    ∧ (reportRow boundaryConfig boundaryResults "uppercase").pass = true := by
  have hp : passCount boundaryResults "uppercase" = 13 := by decide
  have hf : failCount boundaryResults "uppercase" = 7 := by decide
  have hcat : rowCategory boundaryResults "uppercase" = "robustness" := by decide
  have hmin : resolvedMinPassRate boundaryConfig "uppercase" = 65/100 := rfl
  refine ⟨?_, hp, hf, ?_, ?_, ?_⟩
  · intro cfg results t ht
    refine ⟨List.mem_map.mpr ⟨t, ht, rfl⟩, rfl, ?_⟩
    simp [reportRow]
  · simp only [reportRow, hp, hf]
    norm_num
  · simp only [reportRow, hcat, hmin]
    rw [if_neg (by decide : ¬("robustness" = "Accuracy"))]
  · simp only [reportRow, hcat, hmin, hp, hf]
    rw [decide_eq_true_iff, if_neg (by decide : ¬("robustness" = "Accuracy"))]
    norm_num

/-- Witness for C1 at the spec's boundary input. -/
theorem report_pass_rate_and_pass_witness :
    ("uppercase" ∈ testTypes boundaryResults)
    ∧ (("uppercase", reportRow boundaryConfig boundaryResults "uppercase")
        ∈ reportRows boundaryConfig boundaryResults) := by
  refine ⟨by decide, ?_⟩
  exact (report_pass_rate_and_pass.1 boundaryConfig boundaryResults "uppercase" (by decide)).1

/-- Claim C2: a row whose category is `Accuracy` always gets minimum pass
rate 1, whatever the config says. -/
theorem accuracy_min_pass_rate_one (cfg : TestConfig) (results : List ResultSample)
    (t : String) (h : rowCategory results t = "Accuracy") :
    (reportRow cfg results t).minimum_pass_rate = 1 := by
  simp [reportRow, h]

/-- Accuracy results for the C2 witness. -/
def accuracyResults : List ResultSample :=
  [{ test_type := "min_f1", category := "Accuracy", is_pass := false }]

/-- A config that tries to lower the accuracy bar to 0.5, both per test and
by default. -/
def accuracyConfig : TestConfig :=
  { tests := [("accuracy", [("min_f1", ⟨some (1/2)⟩)])]
    defaults_min_pass_rate := some (1/2) }

/-- Witness for C2: even with a configured override of 0.5 the Accuracy row
requires 1. -/
theorem accuracy_min_pass_rate_one_witness :
    rowCategory accuracyResults "min_f1" = "Accuracy"
    ∧ (reportRow accuracyConfig accuracyResults "min_f1").minimum_pass_rate = 1 :=
  ⟨by decide, accuracy_min_pass_rate_one accuracyConfig accuracyResults "min_f1" (by decide)⟩

/-- Lemma: `dictGetD` is `dictGet?` with a fallback. -/
theorem dictGetD_eq_get? (l : List (String × α)) (k : String) (dflt : α) :
    dictGetD l k dflt = (dictGet? l k).getD dflt := by
  unfold dictGetD dictGet?
  cases l.reverse.find? (fun p => p.1 == k) <;> rfl

/-- Lemma: `find?` commutes with a map along which the tested predicate factors. -/
theorem find?_comap {α β : Type} (f : α → β) (p : β → Bool) (q : α → Bool)
    (hpq : ∀ a, p (f a) = q a) :
    ∀ l : List α, (l.map f).find? p = (l.find? q).map f
  | [] => rfl
  | a :: l => by
    by_cases h : q a = true
    · rw [List.map_cons, List.find?_cons_of_pos _ (by rw [hpq a]; exact h),
        List.find?_cons_of_pos _ h, Option.map_some']
    · rw [List.map_cons, List.find?_cons_of_neg _ (by rw [hpq a]; simpa using h),
        List.find?_cons_of_neg _ (by simpa using h), find?_comap f p q hpq l]

/-- Looking a test name up in `min_pass_dict` is looking it up among the
config's flattened test entries and applying the per-entry default. -/
theorem minPassDict_get? (cfg : TestConfig) (t : String) :
    dictGet? (minPassDict cfg) t
      = (dictGet? (testEntries cfg) t).map
          (fun p => p.min_pass_rate.getD (defaultMinPass cfg)) := by
  unfold dictGet? minPassDict
  rw [← List.map_reverse]
  have hcm := find?_comap
    (fun jk : String × TestParams => (jk.1, jk.2.min_pass_rate.getD (defaultMinPass cfg)))
    (fun pr => pr.1 == t) (fun jk => jk.1 == t) (fun _ => rfl) (testEntries cfg).reverse
  rw [hcm]
  cases (testEntries cfg).reverse.find? (fun jk => jk.1 == t) <;> rfl

/-- Claim C3: for a non-Accuracy test type the minimum pass rate the report
uses is the per-test `min_pass_rate` override when the config has one,
otherwise the config's `defaults.min_pass_rate`, otherwise the engine
default 0.65. -/
theorem min_pass_rate_resolution (cfg : TestConfig) (results : List ResultSample) (t : String) :
    (rowCategory results t ≠ "Accuracy" →
      (reportRow cfg results t).minimum_pass_rate = resolvedMinPassRate cfg t)
    ∧ (∀ p r, dictGet? (testEntries cfg) t = some p → p.min_pass_rate = some r →
        resolvedMinPassRate cfg t = r)
    ∧ (∀ p, dictGet? (testEntries cfg) t = some p → p.min_pass_rate = none →
        resolvedMinPassRate cfg t = defaultMinPass cfg)
    ∧ (dictGet? (testEntries cfg) t = none →
        resolvedMinPassRate cfg t = defaultMinPass cfg)
    ∧ (∀ r, cfg.defaults_min_pass_rate = some r → defaultMinPass cfg = r)
    ∧ (cfg.defaults_min_pass_rate = none → defaultMinPass cfg = 65/100) := by
  have hres : resolvedMinPassRate cfg t
      = ((dictGet? (testEntries cfg) t).map
          (fun p => p.min_pass_rate.getD (defaultMinPass cfg))).getD (defaultMinPass cfg) := by
    rw [resolvedMinPassRate, dictGetD_eq_get?, minPassDict_get?]
  refine ⟨?_, ?_, ?_, ?_, ?_, ?_⟩
  · intro h
    simp [reportRow, h]
  · intro p r hp hr
    rw [hres, hp]
    simp [hr]
  · intro p hp hr
    rw [hres, hp]
    simp [hr]
  · intro hp
    rw [hres, hp]
    rfl
  · intro r hr
    simp [defaultMinPass, hr]
  · intro hr
    simp [defaultMinPass, hr]

/-- A config exercising all three resolution steps: a per-test override for
`uppercase`, no override for `add_typo`, and `lowercase` absent. -/
def c3Config : TestConfig :=
  { tests := [("robustness", [("uppercase", ⟨some (9/10)⟩), ("add_typo", ⟨none⟩)])]
    defaults_min_pass_rate := some (1/2) }

/-- Witness for C3: override, config default and absent test name each
resolve as claimed. -/
theorem min_pass_rate_resolution_witness :
    resolvedMinPassRate c3Config "uppercase" = 9/10
    ∧ resolvedMinPassRate c3Config "add_typo" = 1/2
    ∧ resolvedMinPassRate c3Config "lowercase" = 1/2 := by
  refine ⟨(min_pass_rate_resolution c3Config [] "uppercase").2.1 ⟨some (9/10)⟩ (9/10) rfl rfl,
    ?_, ?_⟩
  · rw [(min_pass_rate_resolution c3Config [] "add_typo").2.2.1 ⟨none⟩ rfl rfl]
    rfl
  · rw [(min_pass_rate_resolution c3Config [] "lowercase").2.2.2.1 rfl]
    rfl

/-- Every key of `summary` comes from an evaluated sample (fold invariant of
the summary loop). -/
theorem foldl_types_mem :
    ∀ (results : List ResultSample) (acc : List String) (x : String),
      x ∈ results.foldl
        (fun acc s => if s.test_type ∈ acc then acc else acc ++ [s.test_type]) acc →
      x ∈ acc ∨ ∃ s ∈ results, s.test_type = x
  | [], _, _, hx => Or.inl hx
  | s :: rest, acc, x, hx => by
    rw [List.foldl_cons] at hx
    rcases foldl_types_mem rest _ x hx with h | ⟨s', hs', he⟩
    · by_cases hmem : s.test_type ∈ acc
      · rw [if_pos hmem] at h
        exact Or.inl h
      · rw [if_neg hmem, List.mem_append] at h
        rcases h with h | h
        · exact Or.inl h
        · exact Or.inr ⟨s, List.mem_cons_self s rest, (List.mem_singleton.mp h).symm⟩
    · exact Or.inr ⟨s', List.mem_cons_of_mem s hs', he⟩

/-- A test type with no evaluated sample is not a key of `summary`. -/
theorem not_mem_testTypes (results : List ResultSample) (t : String)
    (h : ∀ s ∈ results, s.test_type ≠ t) : t ∉ testTypes results := by
  intro hmem
  simp only [testTypes] at hmem
  rcases foldl_types_mem results [] t hmem with hc | ⟨s, hs, he⟩
  · exact absurd hc (List.not_mem_nil t)
  · exact h s hs he

/-- Claim C4 (amended): a test type with zero evaluated cases triggers no
division by zero because it gets no report row at all, and every row the
report does contain aggregates at least one case. -/
theorem zero_case_type_skipped (cfg : TestConfig) (results : List ResultSample) (t : String)
    (h : ∀ s ∈ results, s.test_type ≠ t) :
    dictGet? (reportRows cfg results) t = none
    ∧ ∀ t' row, (t', row) ∈ reportRows cfg results →
        0 < passCount results t' + failCount results t' := by
  constructor
  · unfold dictGet? reportRows
    rw [← List.map_reverse]
    have hcm := find?_comap
      (fun t' : String => (t', reportRow cfg results t'))
      (fun pr => pr.1 == t) (fun t' => t' == t) (fun _ => rfl) (testTypes results).reverse
    rw [hcm, List.find?_eq_none.mpr, Option.map_none', Option.map_none']
    intro x hx hbeq
    exact not_mem_testTypes results t h
      (beq_iff_eq.mp hbeq ▸ List.mem_reverse.mp hx)
  · intro t' row hmem
    unfold reportRows at hmem
    rcases List.mem_map.mp hmem with ⟨t'', ht'', heq⟩
    have ht : t'' = t' := congrArg Prod.fst heq
    subst ht
    rcases foldl_types_mem results [] t'' (by simpa [testTypes] using ht'') with hc | ⟨s, hs, he⟩
    · exact absurd hc (List.not_mem_nil t'')
    · cases hip : s.is_pass
      · have : 0 < failCount results t'' :=
          List.countP_pos_iff.mpr ⟨s, hs, by simp [he, hip]⟩
        omega
      · have : 0 < passCount results t'' :=
          List.countP_pos_iff.mpr ⟨s, hs, by simp [he, hip]⟩
        omega

/-- A config declaring both `uppercase` and `lowercase` tests. -/
def c4Config : TestConfig :=
  { tests := [("robustness", [("uppercase", ⟨none⟩), ("lowercase", ⟨none⟩)])]
    defaults_min_pass_rate := some (65/100) }

/-- Evaluated results in which only `uppercase` has cases. -/
def singleUppercaseResults : List ResultSample :=
  [{ test_type := "uppercase", category := "robustness", is_pass := true }]

/-- Claim C4 counterexample: with `lowercase` configured but carrying zero
evaluated cases, the report holds exactly the `uppercase` row and no
`lowercase` row at all — in particular no `lowercase` row whose pass rate
reads as a dash. -/
theorem zero_case_type_not_reported :
    (reportRows c4Config singleUppercaseResults).map Prod.fst = ["uppercase"]
    ∧ dictGet? (reportRows c4Config singleUppercaseResults) "lowercase" = none :=
  ⟨rfl, rfl⟩

/-- Witness for the amended C4 at the concrete zero-case input. -/
theorem zero_case_type_skipped_witness :
    dictGet? (reportRows c4Config singleUppercaseResults) "lowercase" = none :=
  (zero_case_type_skipped c4Config singleUppercaseResults "lowercase" (by decide)).1

/-- Python exceptions raised by the Harness layer. -/
inductive HError where
  | runtimeError (msg : String)
  | osError (msg : String)
  | valueError (msg : String)
  | attributeError (msg : String)
deriving DecidableEq

/-- One generated test case: the originating sample text tagged with the
category and test name that produced it. -/
structure TestCase where
  category : String
  test_type : String
  sample : String
deriving DecidableEq

/-- Modelled from the spec: `TestFactory.transform` (the test factory is not
under src/, only its caller `Harness.generate` is). Per §4.2, for each
`(category, test_name, params)` triple of the test specification, in
declaration order, it fans generation out over the full sample batch in
sample order and tags each produced case with `(category, test_name)`. -/
def TestFactory.transform (data : List String)
    (tests : List (String × List (String × TestParams))) : List TestCase :=
  tests.flatMap (fun cv =>
    cv.2.flatMap (fun jk =>
      data.map (fun s => { category := cv.1, test_type := jk.1, sample := s })))

/-- The mutable fields of a `Harness` object that its stage methods read and
write: `_config`, loaded `data`, `_testcases` and `_generated_results`. -/
structure HarnessState where
  _config : Option TestConfig
  data : List String
  _testcases : Option (List TestCase)
  _generated_results : Option (List ResultSample)
deriving DecidableEq

/-- Embeds `Harness.generate`: reads the top-level `tests` key of the config and
hands it, with the loaded data, to the test factory; stores the produced
test cases. -/
def Harness.generate (s : HarnessState) : HarnessState × Except HError Unit :=
  match s._config with
  | none => (s, .error (.runtimeError "Please call .configure() first."))
  | some cfg =>
      ({ s with _testcases := some (TestFactory.transform s.data cfg.tests) }, .ok ())

/-- Embeds `Harness.run`: refuses before `.generate()`, otherwise stores the
evaluated results. The runner (`BaseRunner(...).evaluate()`, not under
src/) is passed in as `evaluate`. -/
def Harness.run (evaluate : List TestCase → List ResultSample) (s : HarnessState) :
    HarnessState × Except HError Unit :=
  match s._testcases with
  | none =>
      (s, .error (.runtimeError
        "The test casess have not been generated yet. Please use the .generate() method beforecalling the .run() method."))
  | some tc => ({ s with _generated_results := some (evaluate tc) }, .ok ())

/-- Embeds `Harness.report`: refuses before `.run()`, otherwise aggregates the
generated results into the report rows. (With `_config` not a dict the
Python method would crash on `None.get`; that unreachable path is modelled
as an `AttributeError`.) -/
def Harness.report (s : HarnessState) :
    HarnessState × Except HError (List (String × ReportRow)) :=
  match s._generated_results with
  | none =>
      (s, .error (.runtimeError
        "The tests have not been run yet. Please use the .run() method beforecalling the .report() method."))
  | some rs =>
      match s._config with
      | some cfg => (s, .ok (reportRows cfg rs))
      | none => (s, .error (.attributeError "NoneType object has no attribute get"))

/-- The three files `Harness.save` writes and `Harness.load` expects in
`save_dir`; `none` models an absent file. -/
structure SaveDir where
  config_yaml : Option TestConfig
  test_cases_pkl : Option (List TestCase)
  data_pkl : Option (List String)
deriving DecidableEq

/-- Embeds `Harness.save`: refuses before configuration and before generation,
otherwise writes config.yaml, test_cases.pkl and data.pkl. -/
def Harness.save (s : HarnessState) : HarnessState × Except HError SaveDir :=
  if s._config.isNone then
    (s, .error (.runtimeError
      "The current Harness has not been configured yet. Please use the .configure method before calling the .save method."))
  else if s._testcases.isNone then
    (s, .error (.runtimeError
      "The test cases have not been generated yet. Please use the .generate method beforecalling the .save method."))
  else
    (s, .ok { config_yaml := s._config, test_cases_pkl := s._testcases, data_pkl := some s.data })

/-- Embeds `Harness.load`: checks config.yaml, test_cases.pkl and data.pkl in that
order and raises an `OSError` naming the first absent one; otherwise builds
a Harness from the unpickled data and the saved config and calls
`generate()` on it — the contents of test_cases.pkl are never read. -/
def Harness.load (dir : SaveDir) : Except HError HarnessState :=
  match dir.config_yaml, dir.test_cases_pkl, dir.data_pkl with
  | none, _, _ =>
      .error (.osError "File config.yaml is missing to load a previously saved Harness.")
  | some _, none, _ =>
      .error (.osError "File test_cases.pkl is missing to load a previously saved Harness.")
  | some _, some _, none =>
      .error (.osError "File data.pkl is missing to load a previously saved Harness.")
  | some cfg, some _, some data =>
      let h : HarnessState :=
        { _config := some cfg, data := data, _testcases := none, _generated_results := none }
      .ok (Harness.generate h).1

/-- Claim C6: `generate` reads the test specification from the config's
top-level `tests` key and dispatches exactly it, over the loaded sample
batch, to the test factory. -/
theorem generate_dispatches_tests (s : HarnessState) (cfg : TestConfig)
    (h : s._config = some cfg) :
    Harness.generate s
      = ({ s with _testcases := some (TestFactory.transform s.data cfg.tests) }, .ok ()) := by
  simp [Harness.generate, h]

/-- Spec §8 end-to-end config: only `robustness → uppercase`. -/
def c6Config : TestConfig :=
  { tests := [("robustness", [("uppercase", ⟨none⟩)])]
    defaults_min_pass_rate := none }

/-- A configured Harness holding two samples, before generation. -/
def c6State : HarnessState :=
  { _config := some c6Config, data := ["Hello", "World"]
    _testcases := none, _generated_results := none }

/-- Witness for C6: with two samples and the spec `robustness → uppercase`,
generation stores exactly two cases, both tagged `(robustness, uppercase)`,
in sample order. -/
theorem generate_dispatches_tests_witness :
    (Harness.generate c6State).1._testcases
      = some [⟨"robustness", "uppercase", "Hello"⟩, ⟨"robustness", "uppercase", "World"⟩] := by
  rw [generate_dispatches_tests c6State c6Config rfl]
  rfl

/-- Claim C9: `run()` with no generated test cases, `report()` with no run
results, and `save()` with no configuration or no generated test cases each
raise a `RuntimeError`, and in each of these error cases the Harness state
is returned unchanged. -/
theorem premature_calls_raise (s : HarnessState)
    (evaluate : List TestCase → List ResultSample) :
    (s._testcases = none →
      ∃ m, Harness.run evaluate s = (s, .error (.runtimeError m)))
    ∧ (s._generated_results = none →
      ∃ m, Harness.report s = (s, .error (.runtimeError m)))
    ∧ (s._config = none ∨ s._testcases = none →
      ∃ m, Harness.save s = (s, .error (.runtimeError m))) := by
  refine ⟨?_, ?_, ?_⟩
  · intro h
    refine ⟨"The test casess have not been generated yet. Please use the .generate() method beforecalling the .run() method.", ?_⟩
    simp [Harness.run, h]
  · intro h
    refine ⟨"The tests have not been run yet. Please use the .run() method beforecalling the .report() method.", ?_⟩
    simp [Harness.report, h]
  · rintro (h | h)
    · refine ⟨"The current Harness has not been configured yet. Please use the .configure method before calling the .save method.", ?_⟩
      simp [Harness.save, h]
    · cases hc : s._config with
      | none =>
          refine ⟨"The current Harness has not been configured yet. Please use the .configure method before calling the .save method.", ?_⟩
          simp [Harness.save, hc]
      | some cfg =>
          refine ⟨"The test cases have not been generated yet. Please use the .generate method beforecalling the .save method.", ?_⟩
          simp [Harness.save, hc, h]

/-- A freshly configured Harness: config present, nothing generated or
run. -/
def freshState : HarnessState :=
  { _config := some c6Config, data := ["Hello"]
    _testcases := none, _generated_results := none }

/-- Witness for C9 on a freshly configured Harness. -/
theorem premature_calls_raise_witness :
    (∃ m, Harness.run (fun _ => []) freshState = (freshState, .error (.runtimeError m)))
    ∧ (∃ m, Harness.report freshState = (freshState, .error (.runtimeError m)))
    ∧ (∃ m, Harness.save freshState = (freshState, .error (.runtimeError m))) :=
  ⟨(premature_calls_raise freshState (fun _ => [])).1 rfl,
   (premature_calls_raise freshState (fun _ => [])).2.1 rfl,
   (premature_calls_raise freshState (fun _ => [])).2.2 (Or.inr rfl)⟩

/-- Claim C10: `load` raises an `OSError` naming the missing file whenever
config.yaml, test_cases.pkl or data.pkl is absent; with all three present it
returns the Harness built from the unpickled data and saved config with its
test cases regenerated by `generate()`, and the contents of test_cases.pkl
never influence the result. -/
theorem load_checks_files_and_regenerates :
    (∀ dir : SaveDir, dir.config_yaml = none →
      Harness.load dir
        = .error (.osError "File config.yaml is missing to load a previously saved Harness."))
    ∧ (∀ dir : SaveDir, dir.config_yaml ≠ none → dir.test_cases_pkl = none →
      Harness.load dir
        = .error (.osError "File test_cases.pkl is missing to load a previously saved Harness."))
    ∧ (∀ dir : SaveDir, dir.config_yaml ≠ none → dir.test_cases_pkl ≠ none →
        dir.data_pkl = none →
      Harness.load dir
        = .error (.osError "File data.pkl is missing to load a previously saved Harness."))
    ∧ (∀ (cfg : TestConfig) (tc : List TestCase) (data : List String),
      Harness.load ⟨some cfg, some tc, some data⟩
        = .ok { _config := some cfg, data := data
                _testcases := some (TestFactory.transform data cfg.tests)
                _generated_results := none })
    ∧ (∀ (cfg : TestConfig) (tc tc' : List TestCase) (data : List String),
      Harness.load ⟨some cfg, some tc, some data⟩
        = Harness.load ⟨some cfg, some tc', some data⟩) := by
  refine ⟨?_, ?_, ?_, ?_, ?_⟩
  · rintro ⟨c, t, d⟩ h
    cases h
    rfl
  · rintro ⟨c, t, d⟩ hc h
    cases c with
    | none => exact absurd rfl hc
    | some c => cases h; rfl
  · rintro ⟨c, t, d⟩ hc ht h
    cases c with
    | none => exact absurd rfl hc
    | some c =>
      cases t with
      | none => exact absurd rfl ht
      | some t => cases h; rfl
  · intro cfg tc data
    rfl
  · intro cfg tc tc' data
    rfl

/-- Witness for C10: a directory missing test_cases.pkl errors naming it,
and two directories differing only in test_cases.pkl contents load to the
same Harness. -/
theorem load_checks_files_and_regenerates_witness :
    Harness.load ⟨some c6Config, none, some ["Hello"]⟩
      = .error (.osError "File test_cases.pkl is missing to load a previously saved Harness.")
    ∧ Harness.load ⟨some c6Config, some [], some ["Hello"]⟩
      = Harness.load ⟨some c6Config, some [⟨"bias", "swap_entities", "x"⟩], some ["Hello"]⟩ :=
  ⟨load_checks_files_and_regenerates.2.1 ⟨some c6Config, none, some ["Hello"]⟩
      (by simp) rfl,
   load_checks_files_and_regenerates.2.2.2.2 c6Config [] [⟨"bias", "swap_entities", "x"⟩]
      ["Hello"]⟩

/-- One NER span as built by `NERPrediction.from_span` (doc bookkeeping
fields omitted; `end` is written `stop`). -/
structure NERPrediction where
  entity : String
  word : String
  start : Nat
  stop : Nat
  pos_tag : Option String
  chunk_tag : Option String
deriving DecidableEq

/-- A NER sample: the original text and its expected span annotations. -/
structure NERSample where
  original : String
  expected_results : List NERPrediction
deriving DecidableEq

/-- One line of a CoNLL sentence, already split into fields: `split[0]` the
word, `split[1]` the POS tag, `split[2]` the chunk tag, `split[-1]` the
entity tag. -/
structure ConllToken where
  word : String
  pos_tag : String
  chunk_tag : String
  entity : String
deriving DecidableEq

/-- The label-building loop of `ConllDataset.load_data`: each token gets the
half-open span `[cursor, cursor + len(word))` and the cursor advances by
`len(word) + 1` for the joining space. -/
def conllNerLabels : List ConllToken → Nat → List NERPrediction
  | [], _ => []
  | t :: rest, cursor =>
      { entity := t.entity, word := t.word, start := cursor,
        stop := cursor + t.word.length,
        pos_tag := some t.pos_tag, chunk_tag := some t.chunk_tag }
        :: conllNerLabels rest (cursor + t.word.length + 1)

/-- The per-sentence body of `ConllDataset.load_data`: the original text is
the single-space join of the labels' words. -/
def conllSentenceSample (tokens : List ConllToken) : NERSample :=
  let ner_labels := conllNerLabels tokens 0
  { original := String.intercalate " " (ner_labels.map (fun l => l.word))
    expected_results := ner_labels }

/-- The offset discipline the spec states for NER annotations: each span's
`end` is its `start` plus its word's length and each next span starts one
character (the joining space) after the previous span's `end`. -/
def Chained : List NERPrediction → Prop
  | [] => True
  | [a] => a.stop = a.start + a.word.length
  | a :: b :: rest =>
      a.stop = a.start + a.word.length ∧ b.start = a.stop + 1 ∧ Chained (b :: rest)

/-- The CoNLL loader produces chained spans from any cursor. -/
theorem conllNerLabels_chained :
    ∀ (tokens : List ConllToken) (cursor : Nat), Chained (conllNerLabels tokens cursor)
  | [], _ => trivial
  | [_], _ => rfl
  | t :: t' :: rest, cursor => by
    have ih := conllNerLabels_chained (t' :: rest) (cursor + t.word.length + 1)
    exact ⟨rfl, rfl, ih⟩

/-- The CoNLL loader satisfies the whole C5 invariant: chained, start-sorted
spans whose words joined by single spaces give the original. -/
theorem conllSentenceSample_invariants (tokens : List ConllToken) :
    Chained (conllSentenceSample tokens).expected_results
    ∧ (conllSentenceSample tokens).expected_results.Sorted (fun a b => a.start < b.start)
    ∧ (conllSentenceSample tokens).original
        = String.intercalate " "
            ((conllSentenceSample tokens).expected_results.map (fun l => l.word)) := by
  refine ⟨conllNerLabels_chained tokens 0, ?_, rfl⟩
  have key : ∀ (toks : List ConllToken) (cursor : Nat),
      (conllNerLabels toks cursor).Sorted (fun a b => a.start < b.start)
      ∧ ∀ l ∈ conllNerLabels toks cursor, cursor ≤ l.start := by
    intro toks
    induction toks with
    | nil => exact fun _ => ⟨List.sorted_nil, by intro l hl; cases hl⟩
    | cons t rest ih =>
      intro cursor
      obtain ⟨hs, hb⟩ := ih (cursor + t.word.length + 1)
      refine ⟨List.sorted_cons.mpr ⟨?_, hs⟩, ?_⟩
      · intro l hl
        have := hb l hl
        show cursor < l.start
        omega
      · intro l hl
        rcases List.mem_cons.mp hl with h | h
        · subst h
          exact Nat.le_refl _
        · have := hb l h
          omega
  exact (key tokens 0).1

/-- Embeds `" ".join(s)` where `s` is a Python string: it iterates characters. -/
def joinChars (s : String) : String :=
  String.intercalate " " (s.toList.map (fun c => String.mk [c]))

/-- The token loop of `CSVDataset._row_to_ner_sample`: it runs over
`range(len(self.column_map['text']))` — the length of the matched column
NAME — reading `row[text][i]` and `row[ner][i]` with the CoNLL cursor rule;
an out-of-range index is Python's `IndexError`, modelled as `none`. -/
def csvNerLabelsFrom (rowText rowNer : List String)
    (rowPos rowChunk : Option (List String)) :
    Nat → Nat → Nat → Option (List NERPrediction)
  | 0, _, _ => some []
  | k + 1, i, cursor =>
    match rowText[i]?, rowNer[i]? with
    | some token, some ent =>
        (csvNerLabelsFrom rowText rowNer rowPos rowChunk k (i + 1)
            (cursor + token.length + 1)).map
          (fun rest =>
            { entity := ent, word := token, start := cursor,
              stop := cursor + token.length,
              pos_tag := rowPos.bind (fun l => l[i]?),
              chunk_tag := rowChunk.bind (fun l => l[i]?) } :: rest)
    | _, _ => none

/-- Embeds `CSVDataset._row_to_ner_sample`: after asserting that every row column
has as many entries as the text column, it sets
`original = " ".join(self.column_map['text'])` — the space-join of the
characters of the matched text column NAME — and builds the labels with the
loop above. -/
def CSVDataset.rowToNerSample (columnMapText : String) (rowText rowNer : List String)
    (rowPos rowChunk : Option (List String)) : Option NERSample :=
  let token_num := rowText.length
  if (rowNer.length == token_num
      && (match rowPos with | some l => l.length == token_num | none => true)
      && (match rowChunk with | some l => l.length == token_num | none => true)) then
    (csvNerLabelsFrom rowText rowNer rowPos rowChunk columnMapText.length 0 0).map
      (fun labels => { original := joinChars columnMapText, expected_results := labels })
  else none

/-- Claim C5 (failing on the CSV loader): on the row with matched text
column named `text` and tokens `John lives in Paris`, the produced sample's
original is `t e x t` — the space-join of the characters of the column name
— and not the single-space join `John lives in Paris` of the span words. -/
theorem csv_ner_original_mismatch :
    ((CSVDataset.rowToNerSample "text" ["John", "lives", "in", "Paris"]
        ["B-PER", "O", "O", "B-LOC"] none none).map
      (fun s => (s.original,
        String.intercalate " " (s.expected_results.map (fun l => l.word)))))
      = some ("t e x t", "John lives in Paris")
    ∧ ("t e x t" : String) ≠ "John lives in Paris" := by
  exact ⟨by decide, by decide⟩

/-- Embeds `CSVDataset.COLUMN_NAMES['ner']`: the accepted header-name namespaces
per standardized column for the ner task. -/
def NER_COLUMN_NAMES : List (String × List String) :=
  [("text", ["text", "sentences", "sentence", "sample"]),
   ("ner", ["label", "labels ", "class", "classes", "ner_tag", "ner_tags", "ner", "entity"]),
   ("pos", ["pos_tags", "pos_tag", "pos", "part_of_speech"]),
   ("chunk", ["chunk_tags", "chunk_tag"])]

/-- Embeds `CSVDataset.COLUMN_NAMES['text-classification']`. -/
def TEXT_CLASSIFICATION_COLUMN_NAMES : List (String × List String) :=
  [("text", ["text", "sentences", "sentence", "sample"]),
   ("label", ["label", "labels ", "class", "classes"])]

/-- Python's `str.lower()` (ASCII case folding, character by character). -/
def pyLower (s : String) : String :=
  String.mk (s.toList.map Char.toLower)

/-- The inner loop of `CSVDataset._match_column_names`: the last header
column whose lowercasing lies in the namespace wins. -/
def matchedColumn (reference_columns : List String) (column_names : List String) :
    Option String :=
  column_names.reverse.find? (fun c => reference_columns.contains (pyLower c))

/-- Embeds `CSVDataset._match_column_names`: maps header columns onto the
standardized names; when any standardized column stays unmatched it raises
an `OSError` whose message lists exactly the unmatched standardized names
with their accepted namespaces (modelled as the error payload). -/
def matchColumnNames (COLUMN_NAMES : List (String × List String))
    (column_names : List String) :
    Except (List (String × List String)) (List (String × Option String)) :=
  let column_map := COLUMN_NAMES.map (fun kr => (kr.1, matchedColumn kr.2 column_names))
  let not_referenced_columns :=
    COLUMN_NAMES.filter (fun kr => (matchedColumn kr.2 column_names).isNone)
  if not_referenced_columns.isEmpty then .ok column_map else .error not_referenced_columns

/-- Embeds `ConllDataset.__init__`: rejects any task other than `ner` with a
`ValueError` naming the given task (the message reproduces the source,
typo included). -/
def ConllDataset.init (file_path task : String) : Except HError (String × String) :=
  if task ≠ "ner" then
    .error (.valueError
      ("Given task (" ++ task
        ++ ") is not matched with ner. CoNLL dataset can ne only loaded for ner!"))
  else .ok (file_path, task)

/-- Claim C7: the CSV column matcher's error lists exactly every missing
standardized column paired with its accepted namespaces, and the CoNLL
constructor rejects a non-ner task with an error whose message names that
task; both checks are pure and happen before any model call. -/
theorem config_errors_fail_fast (header : List String) (errs : List (String × List String))
    (task : String) :
    (matchColumnNames NER_COLUMN_NAMES header = .error errs →
      ∀ k refs, (k, refs) ∈ errs
        ↔ ((k, refs) ∈ NER_COLUMN_NAMES ∧ ∀ c ∈ header, pyLower c ∉ refs))
    ∧ (task ≠ "ner" → ∀ fp : String,
      ConllDataset.init fp task
        = .error (.valueError
            ("Given task (" ++ task
              ++ ") is not matched with ner. CoNLL dataset can ne only loaded for ner!"))
      ∧ ∃ p q,
          "Given task (" ++ task
              ++ ") is not matched with ner. CoNLL dataset can ne only loaded for ner!"
            = p ++ task ++ q) := by
  constructor
  · intro herr k refs
    simp only [matchColumnNames] at herr
    split at herr
    · cases herr
    · cases herr
      rw [List.mem_filter]
      apply and_congr_right
      intro _
      rw [Option.isNone_iff_eq_none]
      show matchedColumn refs header = none ↔ _
      unfold matchedColumn
      rw [List.find?_eq_none]
      constructor
      · intro hall c hc hmem
        exact hall c (List.mem_reverse.mpr hc) (List.elem_iff.mpr hmem)
      · intro hall c hc hcont
        exact hall c (List.mem_reverse.mp hc) (List.elem_iff.mp hcont)
  · intro hne fp
    refine ⟨?_, "Given task (",
      ") is not matched with ner. CoNLL dataset can ne only loaded for ner!", rfl⟩
    unfold ConllDataset.init
    rw [if_pos hne]

/-- The error payload the matcher yields on the one-column header
`["text"]`: every standardized column except `text` is missing. -/
def csvHeaderErrs : List (String × List String) :=
  [("ner", ["label", "labels ", "class", "classes", "ner_tag", "ner_tags", "ner", "entity"]),
   ("pos", ["pos_tags", "pos_tag", "pos", "part_of_speech"]),
   ("chunk", ["chunk_tags", "chunk_tag"])]

/-- Witness for C7: the header `["text"]` reports `pos` among the missing
columns, and a `text-classification` ConllDataset raises naming the task. -/
theorem config_errors_fail_fast_witness :
    ("pos", ["pos_tags", "pos_tag", "pos", "part_of_speech"]) ∈ csvHeaderErrs
    ∧ ConllDataset.init "sample.conll" "text-classification"
        = .error (.valueError
            ("Given task (" ++ "text-classification"
              ++ ") is not matched with ner. CoNLL dataset can ne only loaded for ner!")) :=
  ⟨((config_errors_fail_fast ["text"] csvHeaderErrs "text-classification").1 rfl
      "pos" ["pos_tags", "pos_tag", "pos", "part_of_speech"]).mpr ⟨by decide, by decide⟩,
   ((config_errors_fail_fast ["text"] csvHeaderErrs "text-classification").2
      (by decide) "sample.conll").1⟩

/-- A classification label with its confidence score. -/
structure SequenceLabel where
  label : String
  score : ℚ
deriving DecidableEq

/-- A classification sample: the original text with its expected labels. -/
structure SequenceClassificationSample where
  original : String
  expected_results : List SequenceLabel
deriving DecidableEq

/-- Embeds `CSVDataset._row_to_seq_classification_sample`: reads the matched text
and label columns of the row and builds the ground-truth label with score 1
(a missing column is Python's `KeyError`, modelled as `none`). -/
def CSVDataset.rowToSeqClassificationSample (textColumn labelColumn : String)
    (row : List (String × String)) : Option SequenceClassificationSample :=
  match row.find? (fun p => p.1 == textColumn), row.find? (fun p => p.1 == labelColumn) with
  | some t, some l =>
      some { original := t.2, expected_results := [{ label := l.2, score := 1 }] }
  | _, _ => none

/-- Claim C8: every classification sample the CSV loader builds carries
ground-truth labels whose confidence score is 1. -/
theorem classification_ground_truth_score_one (textColumn labelColumn : String)
    (row : List (String × String)) (s : SequenceClassificationSample)
    (h : CSVDataset.rowToSeqClassificationSample textColumn labelColumn row = some s) :
    ∀ p ∈ s.expected_results, p.score = 1 := by
  unfold CSVDataset.rowToSeqClassificationSample at h
  cases ht : row.find? (fun p => p.1 == textColumn) with
  | none =>
    rw [ht] at h
    cases h
  | some t =>
    cases hl : row.find? (fun p => p.1 == labelColumn) with
    | none =>
      rw [ht, hl] at h
      cases h
    | some l =>
      rw [ht, hl] at h
      cases h
      intro p hp
      obtain rfl := List.mem_singleton.mp hp
      rfl

/-- Witness for C8 on a concrete classification row. -/
theorem classification_ground_truth_score_one_witness :
    ({ label := "POS", score := 1 } : SequenceLabel).score = 1 :=
  classification_ground_truth_score_one "text" "label"
    [("text", "I love it"), ("label", "POS")]
    { original := "I love it", expected_results := [{ label := "POS", score := 1 }] } rfl
    { label := "POS", score := 1 } (List.mem_singleton.mpr rfl)

end Nlptest
